import Mathlib

/-!
Verification development for the ChipArmour fault-injection countermeasure
library (header `inc/chiparmour.h`).

The header contains executable code only for the return-address guard macro
`CA_ROP_CHECK_VALID_RETURN`; its loop is embedded faithfully below.  The
remaining operations (`ca_compare_u32_eq`, `ca_ret_u8/u16/u32`,
`ca_limit_u32`, `ca_lock_secure1`, `ca_unlock_secure1`) are declared in the
header but their implementations are not part of the repository snapshot, so
they are modelled from the specification, as marked in their doc comments.
-/

/-! ## Status codes (enum `ca_return_t`, header lines 81-86) -/

/-- Status code `CA_SUCCESS = 0x5ABF0938` from `enum ca_return_t`. -/
def CA_SUCCESS : Nat := 0x5ABF0938

/-- Status code `CA_FAIL = 0x2820F02A` from `enum ca_return_t`. -/
def CA_FAIL : Nat := 0x2820F02A

/-- Status code `CA_BADARG = 0x328A9201` from `enum ca_return_t`. -/
def CA_BADARG : Nat := 0x328A9201

/-- Status code `CA_MEMERR = 0x480ABFE1` from `enum ca_return_t`. -/
def CA_MEMERR : Nat := 0x480ABFE1

/-! ## Redundant value types (header lines 55-76) -/

/-- Redundant 32-bit value: struct with fields `cau32` (primary) and
`caiu32` (companion), both `uint32_t`, modelled as naturals below `2^32`. -/
structure ca_uint32_t where
  cau32 : Nat
  caiu32 : Nat
deriving DecidableEq, Repr

/-- Redundant 16-bit value: struct with fields `cau16` (primary) and
`caiu16` (companion), both `uint16_t`. -/
structure ca_uint16_t where
  cau16 : Nat
  caiu16 : Nat
deriving DecidableEq, Repr

/-- Redundant 8-bit value: struct with fields `cau8` (primary) and
`caiu8` (companion), both `uint8_t`. -/
structure ca_uint8_t where
  cau8 : Nat
  caiu8 : Nat
deriving DecidableEq, Repr

/-! ## Redundant value codec -/

/-- Modelled from the spec: the implementation of `ca_ret_u32` is absent from
the repository (the header only declares it, line 206).  Spec sections 3 and
4.1: the codec produces a pair whose primary is the input value and whose
companion is `f(primary)` for the agreed derivation `f` at the moment of
creation; the derivation itself is a policy choice left open by the spec, so
it is a parameter here.  Fields are `uint32_t`, hence the reduction modulo
`2^32`.  The randomized delay has no observable effect on the value. -/
def ca_ret_u32 (f : Nat → Nat) (value : Nat) : ca_uint32_t :=
  ⟨value % 2^32, f (value % 2^32) % 2^32⟩

/-- Modelled from the spec: the implementation of `ca_ret_u16` is absent from
the repository (header line 212); same contract as `ca_ret_u32` at width 16. -/
def ca_ret_u16 (f : Nat → Nat) (value : Nat) : ca_uint16_t :=
  ⟨value % 2^16, f (value % 2^16) % 2^16⟩

/-- Modelled from the spec: the implementation of `ca_ret_u8` is absent from
the repository (header line 218); same contract as `ca_ret_u32` at width 8. -/
def ca_ret_u8 (f : Nat → Nat) (value : Nat) : ca_uint8_t :=
  ⟨value % 2^8, f (value % 2^8) % 2^8⟩

/-! ## Secure comparator -/

/-- Observable behaviour of one call to the comparator: how many times each
caller-supplied continuation was invoked, whether the call escalated into the
fault escalation controller (`ca_panic` and therefore never returned), and the
status code returned to the caller (`none` when the call escalated). -/
structure CompareTrace where
  equal_calls : Nat
  unequal_calls : Nat
  escalated : Bool
  ret : Option Nat
deriving DecidableEq, Repr

/-- Modelled from the spec: the implementation of `ca_compare_u32_eq` is
absent from the repository (the header only declares it, lines 240-245).
Spec section 4.2: first independently re-validate both operands' redundancy
invariant `companion == f(primary)`; if either fails, escalate immediately
without invoking either continuation and without returning; otherwise compare
the primaries, invoke exactly one of the two continuations, and return
`CA_SUCCESS`.  The derivation `f` is the codec's parameter. -/
def ca_compare_u32_eq (f : Nat → Nat) (op1 op2 : ca_uint32_t) : CompareTrace :=
  if op1.caiu32 = f op1.cau32 % 2^32 ∧ op2.caiu32 = f op2.cau32 % 2^32 then
    if op1.cau32 = op2.cau32 then ⟨1, 0, false, some CA_SUCCESS⟩
    else ⟨0, 1, false, some CA_SUCCESS⟩
  else ⟨0, 0, true, none⟩

/-! ## Range limiter -/

/-- Modelled from the spec: the implementation of `ca_limit_u32` is absent
from the repository (the header only declares it, line 224).  Spec section
4.3: return `input` when `min ≤ input ≤ max`, else the nearer bound; when
`min > max` the documented deterministic resolution is to clamp to `min`
(clamp against the upper bound first, then against the lower bound). -/
def ca_limit_u32 (input min max : Nat) : Nat :=
  let v := if input > max then max else input
  if v < min then min else v

/-! ## Return-address guard (macro `CA_ROP_CHECK_VALID_RETURN`, header
lines 117-134) -/

/-- Loop body of `CA_ROP_CHECK_VALID_RETURN`: scan the registry from index
`i`; a zero entry calls `ca_panic()` (result `none`), a match breaks with the
current loop index, and exhausting the array leaves the loop with the index
equal to the array length (result `some` of the final `ca_loopindx`). -/
def ca_rop_scan : List Nat → Nat → Nat → Option Nat
  | [], _, i => some i
  | a :: rest, ca_ra, i =>
    if a = 0 then none
    else if a = ca_ra then some i
    else ca_rop_scan rest ca_ra (i + 1)

/-- Embedding of the macro `CA_ROP_CHECK_VALID_RETURN` (header lines
117-134): run the scan loop over `ca_functionname_valid_returnaddrs` against
the actual return address `ca_ra`; then the trailing check calls `ca_panic()`
when the final loop index is strictly greater than the array length.  The
result is `true` exactly when `ca_panic()` is called (the return does not
proceed). -/
def CA_ROP_CHECK_VALID_RETURN (valid_returnaddrs : List Nat) (ca_ra : Nat) : Bool :=
  match ca_rop_scan valid_returnaddrs ca_ra 0 with
  | none => true
  | some ca_loopindx => decide (ca_loopindx > valid_returnaddrs.length)

/-- Number of loop iterations the scan of `CA_ROP_CHECK_VALID_RETURN`
performs: an iteration that panics on the zero sentinel or breaks on a match
is the last one; otherwise the loop continues to the next entry. -/
def ca_rop_scan_iters : List Nat → Nat → Nat
  | [], _ => 0
  | a :: rest, ca_ra =>
    if a = 0 then 1
    else if a = ca_ra then 1
    else 1 + ca_rop_scan_iters rest ca_ra

/-! ## Memory armour controller (header lines 148-163) -/

/-- State of the protected region `ca_secure1` (spec section 3,
`SecureRegionState`). -/
inductive SecureRegionState where
  | Locked
  | Unlocked
deriving DecidableEq, Repr

/-- Process-wide state of the memory armour controller: the region state and
the expected unlock secret (spec: the key is never stored adjacent to the
state flag, but the controller can recognise it). -/
structure Secure1 where
  state : SecureRegionState
  key : Nat
deriving DecidableEq, Repr

/-- Modelled from the spec: the implementation of `ca_lock_secure1` is absent
from the repository (the header only declares it, line 148).  Spec section
4.4: transitions Unlocked or Locked to Locked; idempotent. -/
def ca_lock_secure1 (s : Secure1) : Secure1 :=
  { s with state := SecureRegionState.Locked }

/-- Modelled from the spec: the guard scan the successful unlock performs on
its own return (spec sections 4.4 and 4.5), over the registry declared at
header line 163 (`secure1_valid_returnaddrs`).  A match found before the zero
sentinel lets the return proceed (`false`); reaching the sentinel or
exhausting the registry escalates (`true`). -/
def secure1_return_check : List Nat → Nat → Bool
  | [], _ => true
  | a :: rest, ca_ra =>
    if a = 0 then true
    else if a = ca_ra then false
    else secure1_return_check rest ca_ra

/-- Modelled from the spec: the implementation of `ca_unlock_secure1` is
absent from the repository (the header only declares it, line 153).  Spec
section 4.4: transitions to Unlocked only when `unlock_key` matches the
expected secret, in which case it additionally validates its own return
address against `secure1_valid_returnaddrs`; on a key mismatch it performs no
transition and escalates.  The boolean result records whether the call
escalated into the fault escalation controller. -/
def ca_unlock_secure1 (s : Secure1) (unlock_key : Nat)
    (secure1_valid_returnaddrs : List Nat) (ca_ra : Nat) : Secure1 × Bool :=
  if unlock_key = s.key then
    ({ s with state := SecureRegionState.Unlocked },
     secure1_return_check secure1_valid_returnaddrs ca_ra)
  else (s, true)

/-! ## Helper lemmas -/

/-- Scan helper: if a zero sentinel sits in the registry and the return
address does not occur before it, the loop of `CA_ROP_CHECK_VALID_RETURN`
calls `ca_panic()` inside the loop, whatever the starting index. -/
theorem ca_rop_scan_sentinel (pre post : List Nat) (ca_ra i : Nat)
    (h : ca_ra ∉ pre) : ca_rop_scan (pre ++ 0 :: post) ca_ra i = none := by
  induction pre generalizing i with
  | nil => simp [ca_rop_scan]
  | cons a rest ih =>
    simp only [List.mem_cons, not_or] at h
    simp only [List.cons_append, ca_rop_scan]
    by_cases ha : a = 0
    · simp [ha]
    · rw [if_neg ha, if_neg (fun hh => h.1 hh.symm)]
      exact ih (i + 1) h.2

/-- Guard helper: the spec-modelled return-site check escalates whenever the
actual return address is not registered. -/
theorem secure1_return_check_not_mem (regs : List Nat) (ca_ra : Nat)
    (h : ca_ra ∉ regs) : secure1_return_check regs ca_ra = true := by
  induction regs with
  | nil => rfl
  | cons a rest ih =>
    simp only [List.mem_cons, not_or] at h
    simp only [secure1_return_check]
    by_cases ha : a = 0
    · simp [ha]
    · rw [if_neg ha, if_neg (fun hh => h.1 hh.symm)]
      exact ih h.2

/-! ## Claim theorems -/

/-- Claim C1 (code bug): on the registry `[5]` (fully populated, no zero
sentinel) and the unmatched return address `7`, the scan exhausts the array
leaving `ca_loopindx` equal to the length, the trailing comparison
`ca_loopindx > len(...)` is false, and `CA_ROP_CHECK_VALID_RETURN` does NOT
call `ca_panic()`: the unmatched return proceeds, contradicting the claim
that the guard escalates in this case. -/
theorem rop_unmatched_full_registry_proceeds :
    (0 : Nat) ∉ ([5] : List Nat) ∧ (7 : Nat) ∉ ([5] : List Nat) ∧
    CA_ROP_CHECK_VALID_RETURN [5] 7 = false := by
  decide

/-- Claim C5: if the scan of `CA_ROP_CHECK_VALID_RETURN` reaches a zero
sentinel before finding the actual return address among the earlier entries,
it calls `ca_panic()` and the return does not proceed; with `pre = []` this
covers the first use of an empty/unprovisioned (all-zero) registry. -/
theorem rop_sentinel_escalates (pre post : List Nat) (ca_ra : Nat)
    (h : ca_ra ∉ pre) :
    CA_ROP_CHECK_VALID_RETURN (pre ++ 0 :: post) ca_ra = true := by
  simp only [CA_ROP_CHECK_VALID_RETURN, ca_rop_scan_sentinel pre post ca_ra 0 h]

/-- Witness for C5 at the registry `[5, 0, 9]` and return address `7`. -/
theorem rop_sentinel_escalates_witness :
    (7 : Nat) ∉ ([5] : List Nat) ∧
    CA_ROP_CHECK_VALID_RETURN ([5] ++ 0 :: [9]) 7 = true :=
  ⟨by decide, rop_sentinel_escalates [5] [9] 7 (by decide)⟩

/-- Claim C10: the scan loop of `CA_ROP_CHECK_VALID_RETURN` terminates after
at most `N` iterations, where `N` is the declared capacity (length) of the
registry, whether it exits by sentinel panic, by match, or by exhausting the
array bound. -/
theorem rop_scan_iteration_bound (regs : List Nat) (ca_ra : Nat) :
    ca_rop_scan_iters regs ca_ra ≤ regs.length := by
  induction regs with
  | nil => simp [ca_rop_scan_iters]
  | cons a rest ih =>
    simp only [ca_rop_scan_iters, List.length_cons]
    split_ifs <;> omega

/-- Claim C2: when either operand of `ca_compare_u32_eq` fails the
redundancy invariant `companion == f(primary)`, the comparator invokes
neither continuation, escalates, and returns no ordinary status. -/
theorem compare_corrupted_escalates (f : Nat → Nat) (op1 op2 : ca_uint32_t)
    (h : ¬ op1.caiu32 = f op1.cau32 % 2^32 ∨
         ¬ op2.caiu32 = f op2.cau32 % 2^32) :
    ca_compare_u32_eq f op1 op2 = ⟨0, 0, true, none⟩ := by
  simp only [ca_compare_u32_eq]
  rw [if_neg (fun hc => h.elim (fun h1 => h1 hc.1) (fun h2 => h2 hc.2))]

/-- Witness for C2: the honest companion of `0x1234 = 4660` under the
complement derivation is `4294962635`; a single-bit flip to `4294962634`
makes the comparator escalate against an honest pair for the same value. -/
theorem compare_corrupted_escalates_witness :
    (¬ (4294962634 : Nat) = (4294967295 - 4660) % 2^32 ∨
     ¬ (4294962635 : Nat) = (4294967295 - 4660) % 2^32) ∧
    ca_compare_u32_eq (fun n => 4294967295 - n)
      (ca_uint32_t.mk 4660 4294962634) (ca_uint32_t.mk 4660 4294962635) =
      ⟨0, 0, true, none⟩ :=
  ⟨Or.inl (by decide),
   compare_corrupted_escalates (fun n => 4294967295 - n)
     (ca_uint32_t.mk 4660 4294962634) (ca_uint32_t.mk 4660 4294962635)
     (Or.inl (by decide))⟩

/-- Claim C3: on two operands both satisfying the redundancy invariant,
`ca_compare_u32_eq` invokes the equal continuation exactly once (and never
the unequal one) when the primaries agree, invokes the unequal continuation
exactly once when they differ, and in both cases returns `CA_SUCCESS`
without escalating. -/
theorem compare_valid_dispatch (f : Nat → Nat) (op1 op2 : ca_uint32_t)
    (h1 : op1.caiu32 = f op1.cau32 % 2^32)
    (h2 : op2.caiu32 = f op2.cau32 % 2^32) :
    (op1.cau32 = op2.cau32 →
      ca_compare_u32_eq f op1 op2 = ⟨1, 0, false, some CA_SUCCESS⟩) ∧
    (op1.cau32 ≠ op2.cau32 →
      ca_compare_u32_eq f op1 op2 = ⟨0, 1, false, some CA_SUCCESS⟩) := by
  constructor <;> intro hc <;> simp [ca_compare_u32_eq, h1, h2, hc]

/-- Witness for C3 at two honest pairs for `4660` under the complement
derivation. -/
theorem compare_valid_dispatch_witness :
    ca_compare_u32_eq (fun n => 4294967295 - n)
      (ca_uint32_t.mk 4660 4294962635) (ca_uint32_t.mk 4660 4294962635) =
      ⟨1, 0, false, some CA_SUCCESS⟩ :=
  (compare_valid_dispatch (fun n => 4294967295 - n)
    (ca_uint32_t.mk 4660 4294962635) (ca_uint32_t.mk 4660 4294962635)
    (by decide) (by decide)).1 (by decide)

/-- Claim C7: for every in-range value of width 8, 16 and 32, the redundant
pair produced by `ca_ret_u8` / `ca_ret_u16` / `ca_ret_u32` has primary equal
to the value and companion equal to the agreed derivation `f` of the primary
(truncated to the field width) at the moment of creation. -/
theorem ca_ret_roundtrip (f : Nat → Nat) (v8 v16 v32 : Nat)
    (h8 : v8 < 2^8) (h16 : v16 < 2^16) (h32 : v32 < 2^32) :
    (ca_ret_u8 f v8).cau8 = v8 ∧
    (ca_ret_u8 f v8).caiu8 = f (ca_ret_u8 f v8).cau8 % 2^8 ∧
    (ca_ret_u16 f v16).cau16 = v16 ∧
    (ca_ret_u16 f v16).caiu16 = f (ca_ret_u16 f v16).cau16 % 2^16 ∧
    (ca_ret_u32 f v32).cau32 = v32 ∧
    (ca_ret_u32 f v32).caiu32 = f (ca_ret_u32 f v32).cau32 % 2^32 :=
  ⟨Nat.mod_eq_of_lt h8, rfl, Nat.mod_eq_of_lt h16, rfl,
   Nat.mod_eq_of_lt h32, rfl⟩

/-- Witness for C7 at the values `0x12`, `0x1234`, `0x12345678` with the
successor derivation. -/
theorem ca_ret_roundtrip_witness :
    (ca_ret_u8 (fun n => n + 1) 0x12).cau8 = 0x12 ∧
    (ca_ret_u8 (fun n => n + 1) 0x12).caiu8 =
      ((ca_ret_u8 (fun n => n + 1) 0x12).cau8 + 1) % 2^8 ∧
    (ca_ret_u16 (fun n => n + 1) 0x1234).cau16 = 0x1234 ∧
    (ca_ret_u16 (fun n => n + 1) 0x1234).caiu16 =
      ((ca_ret_u16 (fun n => n + 1) 0x1234).cau16 + 1) % 2^16 ∧
    (ca_ret_u32 (fun n => n + 1) 0x12345678).cau32 = 0x12345678 ∧
    (ca_ret_u32 (fun n => n + 1) 0x12345678).caiu32 =
      ((ca_ret_u32 (fun n => n + 1) 0x12345678).cau32 + 1) % 2^32 :=
  ca_ret_roundtrip (fun n => n + 1) 0x12 0x1234 0x12345678
    (by decide) (by decide) (by decide)

/-- Claim C8: `ca_limit_u32` returns the input when it lies within the
bounds, otherwise the nearer bound; with inverted bounds it deterministically
returns `min`; and concretely `ca_limit_u32 500 0 255 = 255`. -/
theorem ca_limit_u32_clamps (input mn mx : Nat) :
    (mn ≤ input → input ≤ mx → ca_limit_u32 input mn mx = input) ∧
    (input < mn → ca_limit_u32 input mn mx = mn) ∧
    (mn ≤ mx → mx < input → ca_limit_u32 input mn mx = mx) ∧
    (mx < mn → ca_limit_u32 input mn mx = mn) ∧
    ca_limit_u32 500 0 255 = 255 := by
  refine ⟨fun h1 h2 => ?_, fun h1 => ?_, fun h1 h2 => ?_, fun h1 => ?_,
    by decide⟩ <;>
  · simp only [ca_limit_u32]
    split_ifs <;> omega

/-- Witness for C8 with the in-range input `5` between `3` and `10`. -/
theorem ca_limit_u32_clamps_witness : ca_limit_u32 5 3 10 = 5 :=
  (ca_limit_u32_clamps 5 3 10).1 (by decide) (by decide)

/-- Claim C9: `ca_limit_u32` is idempotent for every input, and whenever
`min ≤ max` its result lies between the two bounds. -/
theorem ca_limit_u32_idempotent_bounds (v mn mx : Nat) :
    ca_limit_u32 (ca_limit_u32 v mn mx) mn mx = ca_limit_u32 v mn mx ∧
    (mn ≤ mx → mn ≤ ca_limit_u32 v mn mx ∧ ca_limit_u32 v mn mx ≤ mx) := by
  simp only [ca_limit_u32]
  constructor
  · split_ifs <;> omega
  · intro h
    constructor <;> split_ifs <;> omega

/-- Witness for C9 at the out-of-range input `500` with bounds `0` and
`255`. -/
theorem ca_limit_u32_idempotent_bounds_witness :
    ca_limit_u32 (ca_limit_u32 500 0 255) 0 255 = ca_limit_u32 500 0 255 ∧
    (0 ≤ ca_limit_u32 500 0 255 ∧ ca_limit_u32 500 0 255 ≤ 255) :=
  ⟨(ca_limit_u32_idempotent_bounds 500 0 255).1,
   (ca_limit_u32_idempotent_bounds 500 0 255).2 (by decide)⟩

/-- Claim C4: `ca_lock_secure1` transitions either state to Locked and is
idempotent on the observable state; `ca_unlock_secure1` with the correct key
after a lock moves the region to Unlocked; `ca_unlock_secure1` with a wrong
key performs no state transition — the region stays Locked — and
escalates. -/
theorem memory_armour_state_machine (s : Secure1) (k : Nat)
    (regs : List Nat) (ca_ra : Nat) (hk : k ≠ s.key) :
    (ca_lock_secure1 s).state = SecureRegionState.Locked ∧
    ca_lock_secure1 (ca_lock_secure1 s) = ca_lock_secure1 s ∧
    (ca_unlock_secure1 (ca_lock_secure1 s) s.key regs ca_ra).1.state =
      SecureRegionState.Unlocked ∧
    ca_unlock_secure1 (ca_lock_secure1 s) k regs ca_ra =
      (ca_lock_secure1 s, true) ∧
    (ca_unlock_secure1 (ca_lock_secure1 s) k regs ca_ra).1.state =
      SecureRegionState.Locked := by
  refine ⟨rfl, rfl, ?_, ?_, ?_⟩
  · simp [ca_unlock_secure1, ca_lock_secure1]
  · simp [ca_unlock_secure1, ca_lock_secure1, hk]
  · simp [ca_unlock_secure1, ca_lock_secure1, hk]

/-- Witness for C4: a region whose unlock secret is `42`, starting Unlocked,
attacked with the wrong key `7`. -/
theorem memory_armour_state_machine_witness :
    (ca_lock_secure1 (Secure1.mk SecureRegionState.Unlocked 42)).state =
      SecureRegionState.Locked ∧
    ca_lock_secure1 (ca_lock_secure1 (Secure1.mk SecureRegionState.Unlocked 42)) =
      ca_lock_secure1 (Secure1.mk SecureRegionState.Unlocked 42) ∧
    (ca_unlock_secure1
      (ca_lock_secure1 (Secure1.mk SecureRegionState.Unlocked 42)) 42 [] 0).1.state =
      SecureRegionState.Unlocked ∧
    ca_unlock_secure1
      (ca_lock_secure1 (Secure1.mk SecureRegionState.Unlocked 42)) 7 [] 0 =
      (ca_lock_secure1 (Secure1.mk SecureRegionState.Unlocked 42), true) ∧
    (ca_unlock_secure1
      (ca_lock_secure1 (Secure1.mk SecureRegionState.Unlocked 42)) 7 [] 0).1.state =
      SecureRegionState.Locked :=
  memory_armour_state_machine (Secure1.mk SecureRegionState.Unlocked 42) 7 [] 0
    (by decide)

/-- Claim C6: a successful `ca_unlock_secure1` (correct key, state moves to
Unlocked) re-validates its own return address against
`secure1_valid_returnaddrs`, and when that address is not registered it
escalates rather than returning to the unregistered site. -/
theorem unlock_return_guard (s : Secure1) (regs : List Nat) (ca_ra : Nat)
    (h : ca_ra ∉ regs) :
    (ca_unlock_secure1 s s.key regs ca_ra).1.state =
      SecureRegionState.Unlocked ∧
    (ca_unlock_secure1 s s.key regs ca_ra).2 = true := by
  simp [ca_unlock_secure1, secure1_return_check_not_mem regs ca_ra h]

/-- Witness for C6: unlocking with the correct key `42` while returning to
the unregistered address `7` (registry `[5]`). -/
theorem unlock_return_guard_witness :
    (7 : Nat) ∉ ([5] : List Nat) ∧
    ((ca_unlock_secure1 (Secure1.mk SecureRegionState.Locked 42) 42 [5] 7).1.state =
       SecureRegionState.Unlocked ∧
     (ca_unlock_secure1 (Secure1.mk SecureRegionState.Locked 42) 42 [5] 7).2 = true) :=
  ⟨by decide, unlock_return_guard (Secure1.mk SecureRegionState.Locked 42) [5] 7
    (by decide)⟩
